import Mathlib

/-!
# Verification of the template-image-extractor region-editing core

Shallow embedding of the repository's region model, region store
(`useCropEditor`), canvas draw gesture (`CropCanvas`), overlay move/resize
gesture (`CropOverlay`), display-to-source coordinate mapping and export
pipeline (`imageUtils`), and the detection-response merge (`Index`).

Numbers that are JavaScript `number`s carrying pixel coordinates are
modelled as rationals `ℚ`; `Math.round` is modelled as `⌊q + 1/2⌋`.
-/

/-- A rectangle in display space, as used for draft draw rectangles and
region geometry (`{x, y, width, height}`). -/
structure Rect where
  x : ℚ
  y : ℚ
  width : ℚ
  height : ℚ
deriving DecidableEq, Repr

/-- `CropRegion` from `src/types/crop.ts`. -/
structure CropRegion where
  id : String
  x : ℚ
  y : ℚ
  width : ℚ
  height : ℚ
  label : Option String
  filename : Option String
deriving DecidableEq, Repr

/-- The fields of a region other than `id` (`Omit<CropRegion, "id">`),
as passed to `addRegion`. -/
structure RegionInit where
  x : ℚ
  y : ℚ
  width : ℚ
  height : ℚ
  label : Option String := none
  filename : Option String := none
deriving DecidableEq, Repr

/-- The state owned by the `useCropEditor` hook: the ordered region
collection and the selected id. -/
structure EditorState where
  regions : List CropRegion
  selectedId : Option String
deriving DecidableEq, Repr

/-- A partial update (`Partial<CropRegion>`): each field is either absent
or supplies a new value, as in the JS object spread `{ ...r, ...updates }`. -/
structure RegionPatch where
  id : Option String := none
  x : Option ℚ := none
  y : Option ℚ := none
  width : Option ℚ := none
  height : Option ℚ := none
  label : Option String := none
  filename : Option String := none
deriving DecidableEq, Repr

/-- JS object spread `{ ...r, ...updates }`: fields present in the patch
override the region's fields. -/
def applyPatch (r : CropRegion) (p : RegionPatch) : CropRegion :=
  { id := p.id.getD r.id
    x := p.x.getD r.x
    y := p.y.getD r.y
    width := p.width.getD r.width
    height := p.height.getD r.height
    label := p.label.or r.label
    filename := p.filename.or r.filename }

/-- `updateRegion` from `useCropEditor`:
`prev.map((r) => (r.id === id ? { ...r, ...updates } : r))`. -/
def updateRegion (s : EditorState) (id : String) (updates : RegionPatch) :
    EditorState :=
  { s with regions := s.regions.map fun r =>
      if r.id = id then applyPatch r updates else r }

/-- `deleteRegion` from `useCropEditor`:
`prev.filter((r) => r.id !== id)`; clears selection when the deleted id was
selected. -/
def deleteRegion (s : EditorState) (id : String) : EditorState :=
  { regions := s.regions.filter fun r => r.id ≠ id
    selectedId := if s.selectedId = some id then none else s.selectedId }

/-- Build a `CropRegion` from a `RegionInit` and an id. -/
def mkRegion (freshId : String) (init : RegionInit) : CropRegion :=
  { id := freshId, x := init.x, y := init.y, width := init.width
    height := init.height, label := init.label, filename := init.filename }

/-- `addRegion` from `useCropEditor`: appends `{...region, id: fresh}` to
the end of the collection and returns the new id. The generated id string
(`crop-${Date.now()}-${random}`) is nondeterministic in the source and is
therefore supplied as the `freshId` parameter. Selection is not touched. -/
def addRegion (s : EditorState) (init : RegionInit) (freshId : String) :
    EditorState × String :=
  ({ s with regions := s.regions ++ [mkRegion freshId init] }, freshId)

/-- `resetRegions` from `useCropEditor`: wholesale replacement of the
collection, clearing the selection. -/
def resetRegions (s : EditorState) (newRegions : List CropRegion) :
    EditorState :=
  { regions := newRegions, selectedId := none }

/-! ## Geometry: display-to-source mapping (`cropImage` in imageUtils) -/

/-- An integer source-space rectangle produced by the display-to-source
conversion. -/
structure SourceRect where
  x : ℤ
  y : ℤ
  width : ℤ
  height : ℤ
deriving DecidableEq, Repr

/-- JavaScript `Math.round`: round half toward positive infinity,
`⌊q + 1/2⌋`. -/
def jsRound (q : ℚ) : ℤ := ⌊q + 1/2⌋

/-- The coordinate conversion performed at the top of `cropImage`
(`src/lib/imageUtils.ts`): `scaleX = originalWidth / displayWidth`,
`scaleY = originalHeight / displayHeight`, then `Math.round` of each
scaled component. -/
def toSourceRect (region : Rect) (originalWidth originalHeight
    displayWidth displayHeight : ℚ) : SourceRect :=
  let scaleX := originalWidth / displayWidth
  let scaleY := originalHeight / displayHeight
  { x := jsRound (region.x * scaleX)
    y := jsRound (region.y * scaleY)
    width := jsRound (region.width * scaleX)
    height := jsRound (region.height * scaleY) }

/-! ## Draw gesture (`CropCanvas`, newest revision with zoom) -/

/-- Clamp `v` to `[lo, hi]`, written the way the source composes
`Math.max(lo, Math.min(v, hi))`. -/
def clampQ (v lo hi : ℚ) : ℚ := max lo (min v hi)

/-- The transient drawing state of `CropCanvas`: `isDrawing`, `drawStart`,
and the draft `drawRect`. -/
structure DrawState where
  isDrawing : Bool
  drawStartX : ℚ
  drawStartY : ℚ
  drawRect : Option Rect
deriving DecidableEq, Repr

/-- `handleMouseDown` of `CropCanvas` (draw-start path, target is the
canvas, not detecting): clears the selection, converts the pointer to
unzoomed display space via `(client - rect.left) / zoomLevel`, and starts
a zero-size draft at that point. -/
def canvasMouseDown (s : EditorState) (d : DrawState)
    (clientX clientY rectLeft rectTop zoomLevel : ℚ) :
    EditorState × DrawState :=
  let x := (clientX - rectLeft) / zoomLevel
  let y := (clientY - rectTop) / zoomLevel
  ({ s with selectedId := none },
   { isDrawing := true, drawStartX := x, drawStartY := y
     drawRect := some ⟨x, y, 0, 0⟩ })

/-- `handleMouseMove` of `CropCanvas`: when drawing, converts the pointer
to display space, clamps it to `[0, imageDimensions]`, and recomputes the
draft as the bounding box of the draw start and the clamped point. -/
def canvasMouseMove (d : DrawState)
    (clientX clientY rectLeft rectTop zoomLevel imageWidth imageHeight : ℚ) :
    DrawState :=
  if d.isDrawing then
    let currentX := max 0 (min ((clientX - rectLeft) / zoomLevel) imageWidth)
    let currentY := max 0 (min ((clientY - rectTop) / zoomLevel) imageHeight)
    let x := min d.drawStartX currentX
    let y := min d.drawStartY currentY
    let width := |currentX - d.drawStartX|
    let height := |currentY - d.drawStartY|
    { d with drawRect := some ⟨x, y, width, height⟩ }
  else d

/-- `handleMouseUp` of `CropCanvas`: commits the draft through
`onAddRegion` exactly when drawing and the draft satisfies
`width > 20 && height > 20`; then leaves drawing mode and discards the
draft.  In the page component `onAddRegion` is the store's `addRegion`
directly, so no selection is made here. -/
def canvasMouseUp (s : EditorState) (d : DrawState) (freshId : String) :
    EditorState × DrawState :=
  let s' :=
    match d.drawRect with
    | some rect =>
        if d.isDrawing ∧ rect.width > 20 ∧ rect.height > 20 then
          (addRegion s ⟨rect.x, rect.y, rect.width, rect.height, none, none⟩
            freshId).1
        else s
    | none => s
  (s', { d with isDrawing := false, drawRect := none })

/-- A complete minimal draw gesture: pointer down at `(sx, sy)`, one
pointer move to `(ex, ey)`, pointer up.  Client coordinates with the
container at `(rectLeft, rectTop)`, zoom `zoomLevel`, image dimensions
`(imageWidth, imageHeight)`. -/
def drawGesture (s : EditorState)
    (sx sy ex ey rectLeft rectTop zoomLevel imageWidth imageHeight : ℚ)
    (freshId : String) : EditorState × DrawState :=
  let d0 : DrawState := ⟨false, 0, 0, none⟩
  let (s1, d1) := canvasMouseDown s d0 sx sy rectLeft rectTop zoomLevel
  let d2 := canvasMouseMove d1 ex ey rectLeft rectTop zoomLevel
    imageWidth imageHeight
  canvasMouseUp s1 d2 freshId

/-! ## Move / resize gesture (`CropOverlay`) -/

/-- The eight resize handles of `CropOverlay`. -/
inductive ResizeHandle where
  | nw | ne | sw | se | n | s | e | w
deriving DecidableEq, Repr

/-- `handle.includes("w")`. -/
def handleHasW : ResizeHandle → Bool
  | .nw | .sw | .w => true
  | _ => false

/-- `handle.includes("e")`. -/
def handleHasE : ResizeHandle → Bool
  | .ne | .se | .e => true
  | _ => false

/-- `handle.includes("n")`. -/
def handleHasN : ResizeHandle → Bool
  | .nw | .ne | .n => true
  | _ => false

/-- `handle.includes("s")`. -/
def handleHasS : ResizeHandle → Bool
  | .sw | .se | .s => true
  | _ => false

/-- The resize branch of `handleMouseMove` in `CropOverlay`
(`src/components/CropOverlay.tsx`): starting from the pointer-down
snapshot `snap`, applies the client-pixel delta `(dx, dy)` to the edges
named by the handle, clamping `x`/`y` at 0; the update is applied only if
the resulting `width >= 20 && height >= 20`, otherwise the region keeps
its current rectangle `cur`. -/
def resizeMove (handle : ResizeHandle) (snap : Rect) (dx dy : ℚ)
    (cur : Rect) : Rect :=
  let newX := if handleHasW handle then max 0 (snap.x + dx) else snap.x
  let newW0 := if handleHasW handle then snap.width - dx else snap.width
  let newW := if handleHasE handle then snap.width + dx else newW0
  let newY := if handleHasN handle then max 0 (snap.y + dy) else snap.y
  let newH0 := if handleHasN handle then snap.height - dy else snap.height
  let newH := if handleHasS handle then snap.height + dy else newH0
  if newW ≥ 20 ∧ newH ≥ 20 then ⟨newX, newY, newW, newH⟩ else cur

/-- Modelled from the spec: the move branch of the pointer-move handler in
the current, zoom-aware revision of `CropOverlay` (the one that receives
the `zoomLevel` prop which the newest `CropCanvas` passes) is not among
the provided source files; only a pre-zoom revision of `CropOverlay` is.
Per §4.3 of the spec: `delta = (currentClient - startClient) / zoomLevel`;
`new position = clamp(snapshot.pos + delta, [0, viewportExtent - size])`
independently per axis. -/
def moveRegionSpec (snap : Rect) (startClientX startClientY
    currentClientX currentClientY zoomLevel extentW extentH : ℚ) : ℚ × ℚ :=
  let dx := (currentClientX - startClientX) / zoomLevel
  let dy := (currentClientY - startClientY) / zoomLevel
  (clampQ (snap.x + dx) 0 (extentW - snap.width),
   clampQ (snap.y + dy) 0 (extentH - snap.height))

/-! ## Detection merge (`handleDetect` in the page component) -/

/-- The kind of user-facing status surfaced by a handler (`toast.success`,
`toast.error`, `toast.info`); message strings are elided. -/
inductive Toast where
  | successT | errorT | infoT
deriving DecidableEq, Repr

/-- Outcome of the detection call as seen by `handleDetect`: the invoke
step threw or returned an `error` (caught, surfaced as an error toast), the
payload carried a `data.error` string, or the payload carried a region
list (an absent list is modelled as `[]`). -/
inductive DetectResponse where
  | invokeError
  | payloadError
  | payload (regions : List CropRegion)
deriving DecidableEq, Repr

/-- `handleDetect` from the page component: on a thrown/invoke error or a
`data.error` payload, surfaces an error toast and leaves the store
untouched; on a non-empty region list, wholesale-replaces the store via
`resetRegions` and surfaces success; on an empty list, surfaces an info
toast and leaves the store untouched. -/
def handleDetect (s : EditorState) (resp : DetectResponse) :
    EditorState × Toast :=
  match resp with
  | .invokeError => (s, .errorT)
  | .payloadError => (s, .errorT)
  | .payload regions =>
      if regions.length > 0 then (resetRegions s regions, .successT)
      else (s, .infoT)

/-! ## Export pipeline (`imageUtils`, newest revision with
`optimizeTemplate`) -/

/-- `ImageFormat` from `imageUtils`. -/
inductive ImageFormat where
  | png | jpeg | webp
deriving DecidableEq, Repr

/-- The string name of a format (used in the template literal
`image/${format}` and as the default extension). -/
def formatName : ImageFormat → String
  | .png => "png"
  | .jpeg => "jpeg"
  | .webp => "webp"

/-- `hasTransparency`: scans the flat RGBA byte array at indices
3, 7, 11, … (`for (let i = 3; i < data.length; i += 4)`) and reports
whether any alpha byte is `< 255`. -/
def hasTransparency : List ℕ → Bool
  | _r :: _g :: _b :: a :: rest => a < 255 || hasTransparency rest
  | _ => false

/-- An RGBA pixel of the raster (channel values are bytes). -/
structure Pixel where
  r : ℕ
  g : ℕ
  b : ℕ
  a : ℕ
deriving DecidableEq, Repr

/-- Flatten a pixel list into the RGBA byte layout of `ImageData.data`. -/
def flattenRGBA : List Pixel → List ℕ
  | [] => []
  | p :: ps => p.r :: p.g :: p.b :: p.a :: flattenRGBA ps

/-- `detectOptimalFormat`: PNG when the raster has transparency, WebP
otherwise. -/
def detectOptimalFormat (data : List ℕ) : ImageFormat :=
  if hasTransparency data then .png else .webp

/-- The format, encoder quality and file extension chosen by
`canvasToOptimizedBlob` (the blob bytes themselves are outside the
model). -/
structure EncodeChoice where
  format : ImageFormat
  quality : Option ℚ
  extension : String
deriving DecidableEq, Repr

/-- The format/quality/extension selection of `canvasToOptimizedBlob`:
`format = forceFormat || detectOptimalFormat(...)`;
`quality = format === 'png' ? undefined : (customQuality ?? 0.85)`;
`extension = format === 'jpeg' ? 'jpg' : format`. -/
def canvasToOptimizedBlob (data : List ℕ) (forceFormat : Option ImageFormat)
    (customQuality : Option ℚ) : EncodeChoice :=
  let format := forceFormat.getD (detectOptimalFormat data)
  { format := format
    quality := if format = .png then none else some (customQuality.getD 0.85)
    extension := if format = .jpeg then "jpg" else formatName format }

/-- The encoding choice made by `cropImage` for a cropped raster: it calls
`canvasToOptimizedBlob(canvas, ctx, forceFormat)` with no custom
quality. -/
def cropEncodeChoice (data : List ℕ) (forceFormat : Option ImageFormat) :
    EncodeChoice :=
  canvasToOptimizedBlob data forceFormat none

/-- The encoding choice made by `optimizeTemplate` for the re-encoded
original image: it calls `canvasToOptimizedBlob(canvas, ctx, forceFormat,
0.92)`. -/
def templateEncodeChoice (data : List ℕ)
    (forceFormat : Option ImageFormat) : EncodeChoice :=
  canvasToOptimizedBlob data forceFormat (some (0.92 : ℚ))

/-! ## Batch export (`downloadAllAsZip` / `handleDownloadAll`) -/

/-- The result of one successful crop-and-encode (`OptimizationResult`);
the blob is opaque and modelled by a natural number tag. -/
structure OptResult where
  blob : ℕ
  format : ImageFormat
  extension : String
deriving DecidableEq, Repr

/-- JS `a || b` over an optional string, with JS falsiness: an absent or
empty string falls through to `b`. -/
def jsOrStr (a : Option String) (b : String) : String :=
  match a with
  | some v => if v = "" then b else v
  | none => b

/-- `baseName.replace(/\.(png|jpg|jpeg|webp)$/i, '')`: strip one trailing
image extension, case-insensitively. -/
def stripImageExt (name : String) : String :=
  if name.toLower.endsWith ".png" then name.dropRight 4
  else if name.toLower.endsWith ".jpg" then name.dropRight 4
  else if name.toLower.endsWith ".jpeg" then name.dropRight 5
  else if name.toLower.endsWith ".webp" then name.dropRight 5
  else name

/-- `region.filename || region.label || `crop-${i + 1}`` for the region at
index `i`. -/
def regionBaseName (i : ℕ) (r : CropRegion) : String :=
  jsOrStr r.filename (jsOrStr r.label ("crop-" ++ toString (i + 1)))

/-- The archive entry filename for the region at index `i`:
`${cleanName}.${result.extension}`. -/
def regionEntryName (i : ℕ) (r : CropRegion) (extension : String) : String :=
  stripImageExt (regionBaseName i r) ++ "." ++ extension

/-- The loop body of `downloadAllAsZip`: crop each region in order
(`for (let i = 0; ...)`), awaiting each `cropImage`; the first rejected
crop rejects the whole batch.  `crop` is the oracle giving each region's
crop-and-encode outcome. -/
def buildEntries (crop : CropRegion → Except String OptResult) :
    List CropRegion → ℕ → Except String (List (String × ℕ))
  | [], _ => .ok []
  | r :: rest, i => do
      let res ← crop r
      let tail ← buildEntries crop rest (i + 1)
      .ok ((regionEntryName i r res.extension, res.blob) :: tail)

/-- The entry list produced when every crop succeeds with outcome
`cropOk`. -/
def okEntries (cropOk : CropRegion → OptResult) :
    List CropRegion → ℕ → List (String × ℕ)
  | [], _ => []
  | r :: rest, i =>
      (regionEntryName i r (cropOk r).extension, (cropOk r).blob) ::
        okEntries cropOk rest (i + 1)

/-- `downloadAllAsZip` (newest revision): optimize the template first and
place it in the archive as `template.<ext>`, then crop all regions in
order; only if every step succeeded is the archive blob generated and
offered for download as `<base>-cropped.zip`.  The result is the ordered
filename-to-blob mapping plus the download name; any failure rejects the
whole promise and no archive is produced. -/
def downloadAllAsZip (template : Except String OptResult)
    (crop : CropRegion → Except String OptResult)
    (regions : List CropRegion) (originalBase : String) :
    Except String (List (String × ℕ) × String) := do
  let t ← template
  let entries ← buildEntries crop regions 0
  .ok (("template." ++ t.extension, t.blob) :: entries,
    originalBase ++ "-cropped.zip")

/-- `handleDownloadAll` from the page component: guarded on an image, a
file and a non-empty region list; on success the archive is offered and a
success toast shown; on any rejection the error is caught, no archive is
offered, an error toast is shown, and the store is left untouched either
way. -/
def handleDownloadAll (s : EditorState) (hasImage hasFile : Bool)
    (template : Except String OptResult)
    (crop : CropRegion → Except String OptResult) (originalBase : String) :
    EditorState × Option (List (String × ℕ) × String) × Option Toast :=
  if ¬hasImage ∨ ¬hasFile ∨ s.regions.length = 0 then (s, none, none)
  else
    match downloadAllAsZip template crop s.regions originalBase with
    | .ok archive => (s, some archive, some .successT)
    | .error _ => (s, none, some .errorT)

/-! ## Helper lemmas -/

/-- `jsRound` rounds to a nearest integer: it is within half a unit of its
argument. -/
theorem jsRound_near (q : ℚ) : |(jsRound q : ℚ) - q| ≤ 1/2 := by
  have h1 : ((⌊q + 1/2⌋ : ℤ) : ℚ) ≤ q + 1/2 := Int.floor_le _
  have h2 : q + 1/2 < ((⌊q + 1/2⌋ : ℤ) : ℚ) + 1 := Int.lt_floor_add_one _
  rw [abs_le]
  unfold jsRound
  constructor <;> linarith

/-- Characterization of a minimal draw gesture: the selection is cleared
and stays empty, and the draft bounding box is committed to the end of the
collection exactly when its width and height both exceed 20. -/
theorem drawGesture_eq (s : EditorState)
    (sx sy ex ey rectLeft rectTop zoom imgW imgH : ℚ) (freshId : String) :
    (drawGesture s sx sy ex ey rectLeft rectTop zoom imgW imgH freshId).1 =
      (let startX := (sx - rectLeft) / zoom
       let startY := (sy - rectTop) / zoom
       let curX := max 0 (min ((ex - rectLeft) / zoom) imgW)
       let curY := max 0 (min ((ey - rectTop) / zoom) imgH)
       let w := |curX - startX|
       let h := |curY - startY|
       if w > 20 ∧ h > 20 then
         ⟨s.regions ++ [⟨freshId, min startX curX, min startY curY, w, h,
           none, none⟩], none⟩
       else ⟨s.regions, none⟩) := by
  simp only [drawGesture, canvasMouseDown, canvasMouseMove, canvasMouseUp,
    addRegion, mkRegion]
  norm_num

/-! ## Claim theorems -/

/-- C1: converting a display-space rectangle to source space scales x and
width by `originalWidth/displayWidth` and y and height by
`originalHeight/displayHeight`, rounding each component to the nearest
integer (within half a unit of the exact scaled value); for source
1000×800, display 500×400 and region `{x:100,y:100,width:100,height:100}`
the source rectangle is `{x:200,y:200,width:200,height:200}`. -/
theorem C1_toSourceRect_scaling :
    (∀ (r : Rect) (ow oh dw dh : ℚ), 0 < dw → 0 < dh →
      (toSourceRect r ow oh dw dh).x = jsRound (r.x * (ow / dw)) ∧
      (toSourceRect r ow oh dw dh).y = jsRound (r.y * (oh / dh)) ∧
      (toSourceRect r ow oh dw dh).width = jsRound (r.width * (ow / dw)) ∧
      (toSourceRect r ow oh dw dh).height = jsRound (r.height * (oh / dh)) ∧
      |((toSourceRect r ow oh dw dh).x : ℚ) - r.x * (ow / dw)| ≤ 1/2 ∧
      |((toSourceRect r ow oh dw dh).y : ℚ) - r.y * (oh / dh)| ≤ 1/2 ∧
      |((toSourceRect r ow oh dw dh).width : ℚ) - r.width * (ow / dw)| ≤ 1/2 ∧
      |((toSourceRect r ow oh dw dh).height : ℚ) - r.height * (oh / dh)| ≤ 1/2) ∧
    toSourceRect ⟨100, 100, 100, 100⟩ 1000 800 500 400 =
      ⟨200, 200, 200, 200⟩ := by
  refine ⟨fun r ow oh dw dh _ _ =>
    ⟨rfl, rfl, rfl, rfl, jsRound_near _, jsRound_near _, jsRound_near _,
      jsRound_near _⟩, ?_⟩
  simp only [toSourceRect, jsRound, SourceRect.mk.injEq]
  norm_num [Int.floor_eq_iff]

/-- C1 witness: the general statement applied at the scenario-A inputs. -/
theorem C1_witness :
    (0 : ℚ) < 500 ∧ (0 : ℚ) < 400 ∧
    ((toSourceRect ⟨100, 100, 100, 100⟩ 1000 800 500 400).x =
      jsRound ((100 : ℚ) * (1000 / 500)) ∧
     |((toSourceRect ⟨100, 100, 100, 100⟩ 1000 800 500 400).x : ℚ) -
       (100 : ℚ) * (1000 / 500)| ≤ 1/2) :=
  ⟨by norm_num, by norm_num,
    ((C1_toSourceRect_scaling.1 ⟨100, 100, 100, 100⟩ 1000 800 500 400
      (by norm_num) (by norm_num)).1),
    ((C1_toSourceRect_scaling.1 ⟨100, 100, 100, 100⟩ 1000 800 500 400
      (by norm_num) (by norm_num)).2.2.2.2.1)⟩

/-- C2 counterexample: for the draw gesture from (10,10) to (200,150) on
an empty collection, the new region `{x:10,y:10,width:190,height:140}` is
appended with the assigned id, but it does not become the selected region:
the selection (cleared at gesture start) is empty afterwards, refuting the
claim's "that region becomes the selected region". -/
theorem C2_draw_selection_counterexample :
    (drawGesture ⟨[], some "prior"⟩ 10 10 200 150 0 0 1 500 400
      "r1").1.regions = [⟨"r1", 10, 10, 190, 140, none, none⟩] ∧
    (drawGesture ⟨[], some "prior"⟩ 10 10 200 150 0 0 1 500 400
      "r1").1.selectedId ≠ some "r1" := by
  have h := drawGesture_eq ⟨[], some "prior"⟩ 10 10 200 150 0 0 1 500 400 "r1"
  norm_num [min_def, max_def, abs_of_nonneg] at h
  refine ⟨by rw [h], by rw [h]; simp⟩

/-- C2 (amended): on pointer-up a new Region is committed iff the drafted
rectangle has width > 20 and height > 20 (display-space pixels); otherwise
the draft is discarded and the collection is unchanged.  For a draw
gesture from (10,10) to (200,150), a new Region
`{x:10,y:10,width:190,height:140}` is appended to the end of the
collection and an id is assigned; the selection, which was cleared when
the gesture started, remains empty — the new region does not become the
selected region. -/
theorem C2_draw_commit_amended :
    (∀ (s : EditorState)
       (sx sy ex ey rectLeft rectTop zoom imgW imgH : ℚ) (freshId : String),
      (drawGesture s sx sy ex ey rectLeft rectTop zoom imgW imgH
          freshId).1 =
        (let startX := (sx - rectLeft) / zoom
         let startY := (sy - rectTop) / zoom
         let curX := max 0 (min ((ex - rectLeft) / zoom) imgW)
         let curY := max 0 (min ((ey - rectTop) / zoom) imgH)
         let w := |curX - startX|
         let h := |curY - startY|
         if w > 20 ∧ h > 20 then
           ⟨s.regions ++ [⟨freshId, min startX curX, min startY curY, w, h,
             none, none⟩], none⟩
         else ⟨s.regions, none⟩)) ∧
    (drawGesture ⟨[], some "prior"⟩ 10 10 200 150 0 0 1 500 400 "r1").1 =
      ⟨[⟨"r1", 10, 10, 190, 140, none, none⟩], none⟩ := by
  refine ⟨drawGesture_eq, ?_⟩
  have h := drawGesture_eq ⟨[], some "prior"⟩ 10 10 200 150 0 0 1 500 400 "r1"
  norm_num [min_def, max_def, abs_of_nonneg] at h
  exact h

/-- C3 counterexample: a direct store `create` call with a 5×5 rectangle
produces a stored region with `width ≤ 20` and `height ≤ 20` — the
minimum-size policy is not enforced at the store boundary. -/
theorem C3_boundary_counterexample :
    ∃ r ∈ (addRegion ⟨[], none⟩ ⟨0, 0, 5, 5, none, none⟩ "r1").1.regions,
      r.width ≤ 20 ∧ r.height ≤ 20 := by
  refine ⟨⟨"r1", 0, 0, 5, 5, none, none⟩, ?_, by norm_num, by norm_num⟩
  simp [addRegion, mkRegion]

/-- C3 (amended): the minimum-size policy is enforced only inside the UI
gestures — a draw commit requires the draft's width and height to exceed
20, and a resize pointer-move is applied only when the resulting width and
height are at least 20 — while the store's create operation appends any
rectangle unchanged, so direct create (or update) calls can produce
entries at or below the minimum size. -/
theorem C3_min_size_gate_ui_only :
    (∀ (s : EditorState) (init : RegionInit) (freshId : String),
      (addRegion s init freshId).1.regions =
        s.regions ++ [mkRegion freshId init]) ∧
    (∀ (s : EditorState) (d : DrawState) (freshId : String) (rect : Rect),
      d.drawRect = some rect →
      (canvasMouseUp s d freshId).1.regions ≠ s.regions →
      rect.width > 20 ∧ rect.height > 20) ∧
    (∀ (handle : ResizeHandle) (snap : Rect) (dx dy : ℚ) (cur : Rect),
      resizeMove handle snap dx dy cur ≠ cur →
      (resizeMove handle snap dx dy cur).width ≥ 20 ∧
        (resizeMove handle snap dx dy cur).height ≥ 20) := by
  refine ⟨fun s init freshId => rfl, ?_, ?_⟩
  · intro s d freshId rect hrect hne
    simp only [canvasMouseUp, hrect] at hne
    by_cases hc : (d.isDrawing : Prop) ∧ rect.width > 20 ∧ rect.height > 20
    · exact hc.2
    · rw [if_neg hc] at hne
      exact absurd rfl hne
  · intro handle snap dx dy cur hne
    simp only [resizeMove] at hne ⊢
    by_cases hc :
        (if handleHasE handle then snap.width + dx
          else if handleHasW handle then snap.width - dx
          else snap.width) ≥ 20 ∧
        (if handleHasS handle then snap.height + dy
          else if handleHasN handle then snap.height - dy
          else snap.height) ≥ 20
    · rw [if_pos hc] at hne ⊢
      exact hc
    · rw [if_neg hc] at hne
      exact absurd rfl hne

/-- C3 witness: the amended statement applied at concrete inputs — a 5×5
direct create is appended unchanged; a 30×40 draft commit implies the
gate; an accepted east-resize to 55×50 satisfies the resize gate. -/
theorem C3_witness :
    ((addRegion ⟨[], none⟩ ⟨0, 0, 5, 5, none, none⟩ "r1").1.regions =
      ([] : List CropRegion) ++ [mkRegion "r1" ⟨0, 0, 5, 5, none, none⟩]) ∧
    ((30 : ℚ) > 20 ∧ (40 : ℚ) > 20) ∧
    ((resizeMove .e ⟨0, 0, 50, 50⟩ 5 0 ⟨0, 0, 50, 50⟩).width ≥ 20 ∧
     (resizeMove .e ⟨0, 0, 50, 50⟩ 5 0 ⟨0, 0, 50, 50⟩).height ≥ 20) :=
  ⟨C3_min_size_gate_ui_only.1 ⟨[], none⟩ ⟨0, 0, 5, 5, none, none⟩ "r1",
   C3_min_size_gate_ui_only.2.1 ⟨[], none⟩ ⟨true, 0, 0, some ⟨0, 0, 30, 40⟩⟩
     "r2" ⟨0, 0, 30, 40⟩ rfl
     (by norm_num [canvasMouseUp, addRegion, mkRegion]),
   C3_min_size_gate_ui_only.2.2 .e ⟨0, 0, 50, 50⟩ 5 0 ⟨0, 0, 50, 50⟩
     (by norm_num [resizeMove, handleHasW, handleHasE, handleHasN,
       handleHasS])⟩

/-- C9: during a resize with a handle including neither the north nor the
west edge, every accepted pointer-move leaves x and y exactly at their
pointer-down snapshot values — an east handle changes only width, a south
handle only height, and the south-east corner only width and height. -/
theorem C9_resize_keep_position :
    (∀ (snap : Rect) (dx dy : ℚ) (cur : Rect),
      snap.width + dx ≥ 20 → snap.height ≥ 20 →
      resizeMove .e snap dx dy cur =
        ⟨snap.x, snap.y, snap.width + dx, snap.height⟩) ∧
    (∀ (snap : Rect) (dx dy : ℚ) (cur : Rect),
      snap.width ≥ 20 → snap.height + dy ≥ 20 →
      resizeMove .s snap dx dy cur =
        ⟨snap.x, snap.y, snap.width, snap.height + dy⟩) ∧
    (∀ (snap : Rect) (dx dy : ℚ) (cur : Rect),
      snap.width + dx ≥ 20 → snap.height + dy ≥ 20 →
      resizeMove .se snap dx dy cur =
        ⟨snap.x, snap.y, snap.width + dx, snap.height + dy⟩) := by
  refine ⟨?_, ?_, ?_⟩ <;>
    (intro snap dx dy cur h1 h2
     simp only [resizeMove, handleHasW, handleHasE, handleHasN, handleHasS,
       Bool.false_eq_true, if_false, if_true]
     exact if_pos ⟨h1, h2⟩)

/-- C9 witness: an accepted east-handle resize at a concrete snapshot
changes only the width. -/
theorem C9_resize_witness :
    (1 : ℚ) + 30 ≥ 20 ∧ (40 : ℚ) ≥ 20 ∧
    resizeMove .e ⟨1, 2, 1 + 29, 40⟩ 0 0 ⟨9, 9, 9, 9⟩ =
      ⟨1, 2, 1 + 29 + 0, 40⟩ :=
  ⟨by norm_num, by norm_num,
    C9_resize_keep_position.1 ⟨1, 2, 1 + 29, 40⟩ 0 0 ⟨9, 9, 9, 9⟩
      (by norm_num) (by norm_num)⟩

/-- C4: each pointer move of a move gesture sets the region's position
from the delta `(currentClient - startClient) / zoomLevel`, clamped
independently per axis to `[0, viewportExtent - size]`; whenever the
region fits in the viewport, the resulting position always stays within
those bounds, so the region is never dragged fully outside the visible
container. -/
theorem C4_move_clamped (snap : Rect)
    (sx sy cx cy zoom extentW extentH : ℚ)
    (hw : snap.width ≤ extentW) (hh : snap.height ≤ extentH) :
    moveRegionSpec snap sx sy cx cy zoom extentW extentH =
      (clampQ (snap.x + (cx - sx) / zoom) 0 (extentW - snap.width),
       clampQ (snap.y + (cy - sy) / zoom) 0 (extentH - snap.height)) ∧
    0 ≤ (moveRegionSpec snap sx sy cx cy zoom extentW extentH).1 ∧
    (moveRegionSpec snap sx sy cx cy zoom extentW extentH).1 ≤
      extentW - snap.width ∧
    0 ≤ (moveRegionSpec snap sx sy cx cy zoom extentW extentH).2 ∧
    (moveRegionSpec snap sx sy cx cy zoom extentW extentH).2 ≤
      extentH - snap.height := by
  refine ⟨rfl, le_max_left 0 _, ?_, le_max_left 0 _, ?_⟩
  · exact max_le (by linarith) (min_le_right _ _)
  · exact max_le (by linarith) (min_le_right _ _)

/-- C4 witness: a concrete move at zoom 2 with a 50×50 region in a
500×400 viewport; the clamped position stays in bounds. -/
theorem C4_move_clamped_witness :
    (50 : ℚ) ≤ 500 ∧ (50 : ℚ) ≤ 400 ∧
    (moveRegionSpec ⟨10, 10, 50, 50⟩ 0 0 1000 (-1000) 2 500 400 =
      (clampQ ((10 : ℚ) + (1000 - 0) / 2) 0 (500 - 50),
       clampQ ((10 : ℚ) + (-1000 - 0) / 2) 0 (400 - 50)) ∧
     0 ≤ (moveRegionSpec ⟨10, 10, 50, 50⟩ 0 0 1000 (-1000) 2 500 400).1 ∧
     (moveRegionSpec ⟨10, 10, 50, 50⟩ 0 0 1000 (-1000) 2 500 400).1 ≤
       500 - 50 ∧
     0 ≤ (moveRegionSpec ⟨10, 10, 50, 50⟩ 0 0 1000 (-1000) 2 500 400).2 ∧
     (moveRegionSpec ⟨10, 10, 50, 50⟩ 0 0 1000 (-1000) 2 500 400).2 ≤
       400 - 50) :=
  ⟨by norm_num, by norm_num,
    C4_move_clamped ⟨10, 10, 50, 50⟩ 0 0 1000 (-1000) 2 500 400
      (by norm_num) (by norm_num)⟩

/-- C5: a detection response with a non-empty region list wholesale-
replaces the Region Store with exactly those regions and clears the
selection; an empty list surfaces only an informational status with no
replacement; an invoke error or an error payload leaves the store
untouched and surfaces an error status. -/
theorem C5_detection_replace (s : EditorState) (regions : List CropRegion) :
    (regions ≠ [] →
      handleDetect s (.payload regions) = (⟨regions, none⟩, .successT)) ∧
    handleDetect s (.payload []) = (s, .infoT) ∧
    handleDetect s .invokeError = (s, .errorT) ∧
    handleDetect s .payloadError = (s, .errorT) := by
  refine ⟨fun h => ?_, rfl, rfl, rfl⟩
  simp [handleDetect, resetRegions, List.length_pos.mpr h]

/-- C5 witness: detection returning 3 regions replaces a store holding
one manually drawn, selected region with exactly those 3 and clears the
selection. -/
theorem C5_detection_witness :
    ([⟨"d1", 0, 0, 100, 100, none, none⟩, ⟨"d2", 10, 10, 80, 80, none, none⟩,
      ⟨"d3", 20, 20, 60, 60, none, none⟩] : List CropRegion) ≠ [] ∧
    handleDetect ⟨[⟨"m1", 5, 5, 50, 50, none, none⟩], some "m1"⟩
      (.payload [⟨"d1", 0, 0, 100, 100, none, none⟩,
        ⟨"d2", 10, 10, 80, 80, none, none⟩,
        ⟨"d3", 20, 20, 60, 60, none, none⟩]) =
      (⟨[⟨"d1", 0, 0, 100, 100, none, none⟩,
         ⟨"d2", 10, 10, 80, 80, none, none⟩,
         ⟨"d3", 20, 20, 60, 60, none, none⟩], none⟩, .successT) :=
  ⟨by simp, (C5_detection_replace _ _).1 (by simp)⟩

/-- Bind on a successful `Except` computation. -/
theorem exceptBind_ok {α β ε : Type} (a : α) (f : α → Except ε β) :
    (Except.ok a >>= f) = f a := rfl

/-- Bind on a failed `Except` computation propagates the failure. -/
theorem exceptBind_error {α β ε : Type} (e : ε) (f : α → Except ε β) :
    ((Except.error e : Except ε α) >>= f) = Except.error e := rfl

/-- When every region's crop succeeds, the batch loop produces exactly one
entry per region, in order. -/
theorem buildEntries_all_ok (crop : CropRegion → Except String OptResult)
    (cropOk : CropRegion → OptResult) :
    ∀ (regions : List CropRegion) (i : ℕ),
      (∀ r ∈ regions, crop r = .ok (cropOk r)) →
      buildEntries crop regions i = .ok (okEntries cropOk regions i) := by
  intro regions
  induction regions with
  | nil => intro i _; rfl
  | cons r rest ih =>
      intro i hall
      have hr : crop r = .ok (cropOk r) := hall r (by simp)
      have hrest := ih (i + 1) fun r' hr' => hall r' (by simp [hr'])
      simp [buildEntries, hr, hrest, okEntries, exceptBind_ok]

/-- If some region's crop fails, the batch loop fails. -/
theorem buildEntries_err (crop : CropRegion → Except String OptResult) :
    ∀ (regions : List CropRegion) (i : ℕ),
      (∃ r ∈ regions, ∃ e, crop r = .error e) →
      ∃ e, buildEntries crop regions i = .error e := by
  intro regions
  induction regions with
  | nil => rintro i ⟨r, hr, -⟩; simp at hr
  | cons r rest ih =>
      rintro i ⟨r', hr', e, he⟩
      cases hv : crop r with
      | error e3 => exact ⟨e3, by simp [buildEntries, hv, exceptBind_error]⟩
      | ok v =>
          rcases List.mem_cons.mp hr' with h | h
          · rw [h] at he; rw [hv] at he; simp at he
          · obtain ⟨e2, he2⟩ := ih (i + 1) ⟨r', h, e, he⟩
            exact ⟨e2, by simp [buildEntries, hv, he2, exceptBind_ok,
              exceptBind_error]⟩

/-- C6: batch export processes the regions sequentially (one archive
entry per region, in order, after the template entry) and aborts on the
first failure: if cropping or encoding any region fails, no archive is
produced or offered, a single failure status is surfaced, and the Region
Store is unchanged. -/
theorem C6_batch_abort :
    (∀ (s : EditorState) (template : Except String OptResult)
       (crop : CropRegion → Except String OptResult)
       (cropOk : CropRegion → OptResult) (t : OptResult) (base : String),
      s.regions ≠ [] → template = .ok t →
      (∀ r ∈ s.regions, crop r = .ok (cropOk r)) →
      handleDownloadAll s true true template crop base =
        (s, some (("template." ++ t.extension, t.blob) ::
          okEntries cropOk s.regions 0, base ++ "-cropped.zip"),
         some .successT)) ∧
    (∀ (s : EditorState) (template : Except String OptResult)
       (crop : CropRegion → Except String OptResult) (base : String),
      (∃ r ∈ s.regions, ∃ e, crop r = .error e) →
      handleDownloadAll s true true template crop base =
        (s, none, some .errorT)) := by
  constructor
  · intro s template crop cropOk t base hne htemp hall
    have hlen : ¬ s.regions.length = 0 := by
      simpa [List.length_eq_zero] using hne
    have hentries := buildEntries_all_ok crop cropOk s.regions 0 hall
    simp [handleDownloadAll, downloadAllAsZip, htemp, hentries, hlen,
      exceptBind_ok]
  · intro s template crop base hex
    have hne : s.regions ≠ [] := by
      rintro h
      rw [h] at hex
      obtain ⟨r, hr, -⟩ := hex
      simp at hr
    have hlen : ¬ s.regions.length = 0 := by
      simpa [List.length_eq_zero] using hne
    obtain ⟨e2, he2⟩ := buildEntries_err crop s.regions 0 hex
    cases htemp : template with
    | error et =>
        simp [handleDownloadAll, downloadAllAsZip, htemp, hlen,
          exceptBind_error]
    | ok t =>
        simp [handleDownloadAll, downloadAllAsZip, htemp, he2, hlen,
          exceptBind_ok, exceptBind_error]

/-- C6 witness: scenario E — a 2-region batch where the second region's
encode fails yields no archive, an error status, and an unchanged
2-region store. -/
theorem C6_batch_witness :
    (∃ r ∈ ([⟨"a", 0, 0, 100, 100, none, none⟩,
        ⟨"b", 10, 10, 80, 80, none, none⟩] : List CropRegion), ∃ e,
      (fun r' : CropRegion =>
        if r'.id = "b" then (Except.error "Failed to create blob" :
          Except String OptResult)
        else .ok ⟨1, .webp, "webp"⟩) r = .error e) ∧
    handleDownloadAll
      ⟨[⟨"a", 0, 0, 100, 100, none, none⟩,
        ⟨"b", 10, 10, 80, 80, none, none⟩], none⟩ true true
      (.ok ⟨0, .webp, "webp"⟩)
      (fun r' : CropRegion =>
        if r'.id = "b" then .error "Failed to create blob"
        else .ok ⟨1, .webp, "webp"⟩) "shot" =
      (⟨[⟨"a", 0, 0, 100, 100, none, none⟩,
         ⟨"b", 10, 10, 80, 80, none, none⟩], none⟩, none, some .errorT) ∧
    ([⟨"a", 0, 0, 100, 100, none, none⟩,
      ⟨"b", 10, 10, 80, 80, none, none⟩] : List CropRegion).length = 2 :=
  ⟨⟨⟨"b", 10, 10, 80, 80, none, none⟩, by simp, "Failed to create blob",
     by simp⟩,
   C6_batch_abort.2 _ _ _ "shot"
     ⟨⟨"b", 10, 10, 80, 80, none, none⟩, by simp, "Failed to create blob",
      by simp⟩,
   rfl⟩

/-- `hasTransparency` on a flattened pixel list reports whether some pixel
has an alpha channel value below 255. -/
theorem hasTransparency_flatten (ps : List Pixel) :
    hasTransparency (flattenRGBA ps) = ps.any fun p => p.a < 255 := by
  induction ps with
  | nil => rfl
  | cons p ps ih => simp [flattenRGBA, hasTransparency, ih]

/-- C7: without a format override, a raster with any pixel alpha below 255
is encoded as lossless PNG (no quality parameter), and an all-opaque
raster is encoded as lossy WebP at quality 0.85 for cropped regions
(`cropImage`) and 0.92 for the re-encoded template (`optimizeTemplate`). -/
theorem C7_format_selection (ps : List Pixel) :
    ((∃ p ∈ ps, p.a < 255) →
      cropEncodeChoice (flattenRGBA ps) none = ⟨.png, none, "png"⟩ ∧
      templateEncodeChoice (flattenRGBA ps) none = ⟨.png, none, "png"⟩) ∧
    ((∀ p ∈ ps, 255 ≤ p.a) →
      cropEncodeChoice (flattenRGBA ps) none =
        ⟨.webp, some 0.85, "webp"⟩ ∧
      templateEncodeChoice (flattenRGBA ps) none =
        ⟨.webp, some 0.92, "webp"⟩) := by
  have ht := hasTransparency_flatten ps
  constructor
  · rintro ⟨p, hp, ha⟩
    have htrue : hasTransparency (flattenRGBA ps) = true := by
      rw [ht]
      exact List.any_eq_true.mpr ⟨p, hp, by simpa using ha⟩
    constructor <;>
      simp [cropEncodeChoice, templateEncodeChoice, canvasToOptimizedBlob,
        detectOptimalFormat, formatName, htrue]
  · intro hall
    have hfalse : hasTransparency (flattenRGBA ps) = false := by
      rw [ht]
      simp only [List.any_eq_false, decide_eq_true_eq]
      exact fun p hp => not_lt.mpr (hall p hp)
    constructor <;>
      simp [cropEncodeChoice, templateEncodeChoice, canvasToOptimizedBlob,
        detectOptimalFormat, formatName, hfalse]

/-- C7 witness: a raster with one semi-transparent pixel selects PNG; an
all-opaque raster selects WebP at 0.85 (crop) and 0.92 (template). -/
theorem C7_format_witness :
    (∃ p ∈ [Pixel.mk 10 20 30 128], p.a < 255) ∧
    cropEncodeChoice (flattenRGBA [Pixel.mk 10 20 30 128]) none =
      ⟨.png, none, "png"⟩ ∧
    (∀ p ∈ [Pixel.mk 10 20 30 255], 255 ≤ p.a) ∧
    cropEncodeChoice (flattenRGBA [Pixel.mk 10 20 30 255]) none =
      ⟨.webp, some 0.85, "webp"⟩ ∧
    templateEncodeChoice (flattenRGBA [Pixel.mk 10 20 30 255]) none =
      ⟨.webp, some 0.92, "webp"⟩ :=
  ⟨⟨Pixel.mk 10 20 30 128, by simp, by norm_num⟩,
   ((C7_format_selection _).1 ⟨Pixel.mk 10 20 30 128, by simp,
     by norm_num⟩).1,
   by simp,
   ((C7_format_selection _).2 (by simp)).1,
   ((C7_format_selection _).2 (by simp)).2⟩

/-- C8 counterexample: the store's update merges any supplied fields,
including `id`: a single `update("a", {id: "b"})` call changes an existing
region's id, and when another region already holds id "b" it also breaks
id uniqueness. -/
theorem C8_id_mutation_counterexample :
    (updateRegion ⟨[⟨"a", 0, 0, 100, 100, none, none⟩,
        ⟨"b", 10, 10, 80, 80, none, none⟩], none⟩ "a"
      { id := some "b" }).regions.map CropRegion.id = ["b", "b"] := by
  simp [updateRegion, applyPatch]

/-- C8 (amended): an id is assigned once at creation (`create` appends the
fresh id and leaves all existing ids alone), and no update whose partial
omits the `id` field changes any region's id — so id uniqueness is
preserved by such updates; however, the store itself does not guard the
`id` field, so an update explicitly carrying an `id` can change it. -/
theorem C8_id_stability_amended :
    (∀ (s : EditorState) (init : RegionInit) (freshId : String),
      (addRegion s init freshId).1.regions.map CropRegion.id =
        s.regions.map CropRegion.id ++ [freshId]) ∧
    (∀ (s : EditorState) (id : String) (p : RegionPatch), p.id = none →
      (updateRegion s id p).regions.map CropRegion.id =
        s.regions.map CropRegion.id) ∧
    (∀ (s : EditorState) (id : String) (p : RegionPatch), p.id = none →
      (((updateRegion s id p).regions.map CropRegion.id).Nodup ↔
        (s.regions.map CropRegion.id).Nodup)) := by
  have hupd : ∀ (s : EditorState) (id : String) (p : RegionPatch),
      p.id = none →
      (updateRegion s id p).regions.map CropRegion.id =
        s.regions.map CropRegion.id := by
    intro s id p hp
    simp only [updateRegion, List.map_map]
    refine List.map_congr_left fun r _ => ?_
    by_cases h : r.id = id <;> simp [Function.comp, h, applyPatch, hp]
  refine ⟨fun s init freshId => by simp [addRegion, mkRegion], hupd,
    fun s id p hp => by rw [hupd s id p hp]⟩

/-- C8 witness: an id-free geometry update on a one-region store leaves
the id list unchanged. -/
theorem C8_id_witness :
    ({ x := some 77 } : RegionPatch).id = none ∧
    (updateRegion ⟨[⟨"a", 0, 0, 100, 100, none, none⟩], some "a"⟩ "a"
        { x := some 77 }).regions.map CropRegion.id =
      (⟨[⟨"a", 0, 0, 100, 100, none, none⟩], some "a"⟩ :
        EditorState).regions.map CropRegion.id :=
  ⟨rfl, C8_id_stability_amended.2.1
    ⟨[⟨"a", 0, 0, 100, 100, none, none⟩], some "a"⟩ "a"
    { x := some 77 } rfl⟩

/-- C10 counterexample: `deleteRegion`'s selection-clear branch compares
the selection against the deleted id without consulting the collection,
so deleting the absent id "zz" from a state whose selection dangles at
"zz" clears the selection — the state is not left unchanged. -/
theorem C10_dangling_selection_counterexample :
    ("zz" ∉ ([⟨"a", 0, 0, 100, 100, none, none⟩] :
      List CropRegion).map CropRegion.id) ∧
    deleteRegion ⟨[⟨"a", 0, 0, 100, 100, none, none⟩], some "zz"⟩ "zz" =
      ⟨[⟨"a", 0, 0, 100, 100, none, none⟩], none⟩ ∧
    deleteRegion ⟨[⟨"a", 0, 0, 100, 100, none, none⟩], some "zz"⟩ "zz" ≠
      ⟨[⟨"a", 0, 0, 100, 100, none, none⟩], some "zz"⟩ := by
  refine ⟨by simp, by simp [deleteRegion], by simp [deleteRegion]⟩

/-- C10 (amended): deleting an id that is not present in the collection
always leaves the collection unchanged (every region, in order); it also
leaves the selection unchanged whenever the selection is not exactly that
absent id — in particular whenever it is empty or refers to a stored
region — but a selection dangling at the deleted id is cleared to null. -/
theorem C10_delete_absent_amended :
    (∀ (s : EditorState) (id : String), id ∉ s.regions.map CropRegion.id →
      (deleteRegion s id).regions = s.regions) ∧
    (∀ (s : EditorState) (id : String), id ∉ s.regions.map CropRegion.id →
      s.selectedId ≠ some id → deleteRegion s id = s) ∧
    (∀ (s : EditorState) (id : String), s.selectedId = some id →
      (deleteRegion s id).selectedId = none) := by
  have hfilter : ∀ (s : EditorState) (id : String),
      id ∉ s.regions.map CropRegion.id →
      s.regions.filter (fun r => r.id ≠ id) = s.regions := by
    intro s id habs
    apply List.filter_eq_self.mpr
    intro r hr
    simp only [decide_eq_true_eq]
    exact fun he => habs (he ▸ List.mem_map_of_mem CropRegion.id hr)
  refine ⟨?_, ?_, ?_⟩
  · intro s id habs
    show s.regions.filter (fun r => r.id ≠ id) = s.regions
    exact hfilter s id habs
  · intro s id habs hsel
    unfold deleteRegion
    rw [hfilter s id habs, if_neg hsel]
  · intro s id hsel
    simp [deleteRegion, hsel]

/-- C10 witness: deleting the absent id "zz" is a complete no-op on a
store whose selection refers to the stored region "a", and clears a
selection dangling at "zz". -/
theorem C10_delete_amended_witness :
    ("zz" ∉ ([⟨"a", 0, 0, 100, 100, none, none⟩] :
      List CropRegion).map CropRegion.id) ∧
    ((⟨[⟨"a", 0, 0, 100, 100, none, none⟩], some "a"⟩ :
      EditorState).selectedId ≠ some "zz") ∧
    deleteRegion ⟨[⟨"a", 0, 0, 100, 100, none, none⟩], some "a"⟩ "zz" =
      ⟨[⟨"a", 0, 0, 100, 100, none, none⟩], some "a"⟩ ∧
    (deleteRegion ⟨[⟨"a", 0, 0, 100, 100, none, none⟩], some "zz"⟩
      "zz").selectedId = none :=
  ⟨by simp, by simp,
   C10_delete_absent_amended.2.1
     ⟨[⟨"a", 0, 0, 100, 100, none, none⟩], some "a"⟩ "zz"
     (by simp) (by simp),
   C10_delete_absent_amended.2.2
     ⟨[⟨"a", 0, 0, 100, 100, none, none⟩], some "zz"⟩ "zz" rfl⟩
